import Mathlib

/-!
Shallow embedding of `meta_scorer/scoring_aggregator.py`
(class `MetaScoringAggregator` and its helpers).

Modelling conventions:
* Python numbers appearing in module records and threshold configs are
  embedded as rationals (`ℚ`); integer counts as `ℤ` or `ℕ`; module
  scores as `ℤ` (every scoring rule builds its score from integer
  literals and integer config values).
* A Python `dict.get(key, default)` on a module record is embedded as an
  `Option` field plus `Option.getD`.  Fields whose Python default is
  `float('inf')` keep the `Option`: the `none` case is translated to
  whatever the comparison with the (finite) config value yields for
  `+inf` (e.g. `inf > rmsd_max` is `true`, `inf < threshold` is `false`,
  `min inf k = k`).
* Exceptions are embedded as `Except` / `Option ScoringError`, where the
  inductive `ScoringError` has one constructor per `raise` site and
  `ScoringError.message` reproduces each site's message string
  (including the `except Exception` re-wrapping in `_load_config`).
-/

namespace MetaScorer

/-- The six recognized module names, in the order the source lists them
(`required_modules` in `_validate_config` / `_validate_input`, which is
also the insertion order of the `scoring_functions` dispatcher). -/
def requiredModules : List String :=
  ["docking", "adme_pk", "toxicity", "druggability", "drug_likeness", "off_target"]

/-- Python's builtin `max` on integers, as the explicit comparison it
performs. -/
def imax (a b : ℤ) : ℤ := if a ≤ b then b else a

/-- Python's builtin `min` on integers, as the explicit comparison it
performs. -/
def imin (a b : ℤ) : ℤ := if a ≤ b then a else b

/-- Python's builtin `min` on nonnegative counts. -/
def nmin (a b : ℕ) : ℕ := if a ≤ b then a else b

/-- Python's `str.lower()`: lowercase every character. -/
def strLower (s : String) : String := ⟨s.data.map Char.toLower⟩

/-- One constructor per `raise ScoringError(...)` site of the source. -/
inductive ScoringError where
  | configNotFound (path : String)
  | invalidYaml (detail : String)
  | configEmpty
  | missingSection (section_ : String)
  | missingWeight (module_ : String)
  | missingThreshold (module_ : String)
  | inputNotDict
  | inputEmpty
  | missingModules (missing : List String)
  deriving DecidableEq, Repr

/-- The message each raise site produces.  `configNotFound` and
`configEmpty` are raised inside the `try` of `_load_config` and caught by
its `except Exception` clause, which re-raises them wrapped in
`"Error loading configuration: ..."`; the embedded messages are the
wrapped ones actually observed by callers. -/
def ScoringError.message : ScoringError → String
  | .configNotFound path =>
      "Error loading configuration: Configuration file not found: " ++ path
  | .invalidYaml detail => "Invalid YAML format: " ++ detail
  | .configEmpty =>
      "Error loading configuration: Configuration file is empty or invalid"
  | .missingSection s => "Missing required config section: " ++ s
  | .missingWeight m => "Missing weight for module: " ++ m
  | .missingThreshold m => "Missing thresholds for module: " ++ m
  | .inputNotDict => "Input must be a dictionary"
  | .inputEmpty => "Input dictionary cannot be empty"
  | .missingModules missing =>
      "Missing required modules: " ++ toString missing

/-! ## Module record types (inputs to the scoring rules)

Each field is an `Option`, mirroring `dict.get(field, default)`;
the Python defaults are applied inside each scoring rule below, exactly
where the source applies them. -/

structure DockingData where
  affinity_kcal : Option ℚ := none
  rmsd : Option ℚ := none
  num_converged_poses : Option ℤ := none
  deriving DecidableEq, Repr

structure AdmeData where
  logP : Option ℚ := none
  hia : Option String := none
  half_life_hr : Option ℚ := none
  clearance : Option String := none
  cyp_inhibition : Option Bool := none
  deriving DecidableEq, Repr

structure ToxData where
  num_models_flagged : Option ℤ := none
  high_risk_models : Option (List String) := none
  deriving DecidableEq, Repr

structure DruggData where
  pocket_score : Option ℚ := none
  volume : Option ℚ := none
  hydrophobicity : Option ℚ := none
  deriving DecidableEq, Repr

structure DrugLikenessData where
  num_violations : Option ℕ := none
  deriving DecidableEq, Repr

structure OffTargetData where
  selectivity_index : Option ℚ := none
  num_off_targets : Option ℚ := none
  deriving DecidableEq, Repr

/-! ## Per-module threshold configs (`self.config["thresholds"][module]`) -/

structure DockingConfig where
  affinity_high : ℚ
  affinity_medium : ℚ
  affinity_low : ℚ
  rmsd_max : ℚ
  min_poses : ℤ
  deriving DecidableEq, Repr

structure AdmeConfig where
  logP_lo : ℚ
  logP_hi : ℚ
  half_life_min : ℚ
  clearance_acceptable : List String
  cyp_inhibition_penalty : ℤ
  deriving DecidableEq, Repr

structure ToxConfig where
  max_flags_allowed : ℤ
  override_models : List String
  deriving DecidableEq, Repr

structure DruggConfig where
  high_score : ℚ
  mid_score : ℚ
  bonus_volume_min : ℚ
  bonus_hydrophobicity_min : ℚ
  volume_hydrophobicity_bonus : ℤ
  deriving DecidableEq, Repr

structure DrugLikenessConfig where
  score_by_violations : List (ℕ × ℤ)
  deriving DecidableEq, Repr

structure OffTargetConfig where
  si_t0 : ℚ
  si_t1 : ℚ
  si_t2 : ℚ
  low_target_bonus_threshold : ℚ
  low_target_bonus : ℤ
  deriving DecidableEq, Repr

/-- The `thresholds` section as the scoring code reads it. -/
structure Thresholds where
  docking : DockingConfig
  adme_pk : AdmeConfig
  toxicity : ToxConfig
  druggability : DruggConfig
  drug_likeness : DrugLikenessConfig
  off_target : OffTargetConfig
  deriving DecidableEq, Repr

/-! ## The six scoring rules -/

/-- `_score_docking` (lines 120-136).  `rmsd` defaults to `float('inf')`,
so with the field absent `rmsd > config["rmsd_max"]` is true. -/
def score_docking (d : DockingData) (c : DockingConfig) : ℤ :=
  let affinity := d.affinity_kcal.getD 0
  let poses := d.num_converged_poses.getD 0
  let score : ℤ :=
    if affinity < c.affinity_high then 25
    else if affinity < c.affinity_medium then 20
    else if affinity < c.affinity_low then 10
    else 0
  let rmsdBad : Bool :=
    match d.rmsd with
    | none => true
    | some r => decide (r > c.rmsd_max)
  let score := if rmsdBad || decide (poses < c.min_poses) then score - 5 else score
  imax score 0

/-- `_score_adme_pk` (lines 138-150).  String comparisons go through
`strLower`, embedding Python's `.lower()`. -/
def score_adme_pk (d : AdmeData) (c : AdmeConfig) : ℤ :=
  let logP := d.logP.getD (-1)
  let score : ℤ := 0
  let score := if c.logP_lo ≤ logP ∧ logP ≤ c.logP_hi then score + 5 else score
  let score := if strLower (d.hia.getD "") = "high" then score + 5 else score
  let score := if d.half_life_hr.getD 0 > c.half_life_min then score + 5 else score
  let score :=
    if strLower (d.clearance.getD "") ∈ c.clearance_acceptable.map strLower
    then score + 5 else score
  let score := if d.cyp_inhibition.getD false then score + c.cyp_inhibition_penalty else score
  imax score 0

/-- `_score_toxicity` (lines 152-169): returns the floored score and the
optional override reason. -/
def score_toxicity (d : ToxData) (c : ToxConfig) : ℤ × Option String :=
  let num_flagged := d.num_models_flagged.getD 0
  let score : ℤ := 0
  let failure_reason : Option String := none
  let (score, failure_reason) :=
    if num_flagged = 0 then (20, failure_reason)
    else if num_flagged = 1 then (10, failure_reason)
    else if num_flagged > c.max_flags_allowed then
      (score, some (">" ++ toString c.max_flags_allowed ++ " toxicity models flagged"))
    else (score, failure_reason)
  let high_risk_penalties :=
    (d.high_risk_models.getD []).filter (fun m => m ∈ c.override_models)
  let (score, failure_reason) :=
    if high_risk_penalties ≠ [] then
      let penalty_reason :=
        "High-risk models flagged: " ++ String.intercalate ", " high_risk_penalties
      (score - 10 * high_risk_penalties.length,
       match failure_reason with
       | some r => some (r ++ "; " ++ penalty_reason)
       | none => some penalty_reason)
    else (score, failure_reason)
  (imax score 0, failure_reason)

/-- `_score_druggability` (lines 171-182).  Note: the source returns
`score` directly, without a `max(score, 0)` floor. -/
def score_druggability (d : DruggData) (c : DruggConfig) : ℤ :=
  let score : ℤ := 0
  let score :=
    if d.pocket_score.getD 0 > c.high_score then score + 10
    else if d.pocket_score.getD 0 ≥ c.mid_score then score + 5
    else score
  let score :=
    if d.volume.getD 0 ≥ c.bonus_volume_min ∧
       d.hydrophobicity.getD 0 ≥ c.bonus_hydrophobicity_min
    then score + c.volume_hydrophobicity_bonus else score
  score

/-- First-match lookup in the violations table with default `0`,
embedding `score_table.get(violations, 0)` (a Python dict has at most
one entry per key, so first-match is the dict lookup). -/
def tableLookup (tbl : List (ℕ × ℤ)) (k : ℕ) : ℤ :=
  ((tbl.find? (fun p => p.fst = k)).map Prod.snd).getD 0

/-- `max(score_table.keys())` over `ℕ` keys; the seed `0` is a lower
bound of every `ℕ`, so on a nonempty table this is the Python `max`
(Python's `max()` on an empty table raises, a case no claim exercises).
-/
def maxKey (tbl : List (ℕ × ℤ)) : ℕ :=
  (tbl.map Prod.fst).foldr max 0

/-- `_score_drug_likeness` (lines 184-188).  `num_violations` defaults to
`float('inf')`, so with the field absent `min(violations, max(keys))` is
the largest key. -/
def score_drug_likeness (d : DrugLikenessData) (c : DrugLikenessConfig) : ℤ :=
  let violations :=
    match d.num_violations with
    | none => maxKey c.score_by_violations
    | some v => nmin v (maxKey c.score_by_violations)
  tableLookup c.score_by_violations violations

/-- `_score_off_target` (lines 190-205).  `num_off_targets` defaults to
`float('inf')`, so with the field absent the low-target bonus test
`inf < low_target_bonus_threshold` is false.  The source returns
`score` without a floor. -/
def score_off_target (d : OffTargetData) (c : OffTargetConfig) : ℤ :=
  let si := d.selectivity_index.getD 0
  let score : ℤ :=
    if si > c.si_t2 then 15
    else if si > c.si_t1 then 10
    else if si > c.si_t0 then 5
    else 0
  let lowTargets : Bool :=
    match d.num_off_targets with
    | none => false
    | some n => decide (n < c.low_target_bonus_threshold)
  if lowTargets then score + c.low_target_bonus else score

/-! ## Score request (input bundle) and input validation -/

/-- The `module_outputs` mapping as the aggregator reads it: each of the
six recognized keys is present (`some record`) or absent (`none`);
`extraKeys` holds any further keys of the mapping (never one of the six —
they are only relevant to the emptiness test, since the source otherwise
reads the six keys by name). -/
structure ModuleOutputs where
  docking : Option DockingData := none
  adme_pk : Option AdmeData := none
  toxicity : Option ToxData := none
  druggability : Option DruggData := none
  drug_likeness : Option DrugLikenessData := none
  off_target : Option OffTargetData := none
  extraKeys : List String := []
  deriving DecidableEq, Repr

/-- A value passed as the `module_outputs` argument: either not a Python
`dict` at all, or a `dict` with the contents of `ModuleOutputs`. -/
inductive ScoreRequest where
  | notDict
  | dict (m : ModuleOutputs)
  deriving DecidableEq, Repr

/-- `module_name in module_outputs` for the six recognized names. -/
def ModuleOutputs.hasKey (m : ModuleOutputs) : String → Bool
  | "docking" => m.docking.isSome
  | "adme_pk" => m.adme_pk.isSome
  | "toxicity" => m.toxicity.isSome
  | "druggability" => m.druggability.isSome
  | "drug_likeness" => m.drug_likeness.isSome
  | "off_target" => m.off_target.isSome
  | _ => false

/-- `not module_outputs`: the mapping has no keys at all. -/
def ModuleOutputs.isEmptyDict (m : ModuleOutputs) : Bool :=
  m.docking.isNone && m.adme_pk.isNone && m.toxicity.isNone &&
  m.druggability.isNone && m.drug_likeness.isNone && m.off_target.isNone &&
  m.extraKeys.isEmpty

/-- `[m for m in required_modules if m not in module_outputs]`. -/
def missingKeys (m : ModuleOutputs) : List String :=
  requiredModules.filter (fun k => ¬ m.hasKey k)

/-- `_validate_input` (lines 106-116): `none` means validation passed. -/
def validate_input : ScoreRequest → Option ScoringError
  | .notDict => some .inputNotDict
  | .dict m =>
    if m.isEmptyDict then some .inputEmpty
    else
      let missing := missingKeys m
      if missing ≠ [] then some (.missingModules missing) else none

/-! ## Aggregation -/

/-- `score_breakdown`: one integer score per module, in the dispatcher's
insertion order. -/
structure ScoreBreakdown where
  docking : ℤ
  adme_pk : ℤ
  toxicity : ℤ
  druggability : ℤ
  drug_likeness : ℤ
  off_target : ℤ
  deriving DecidableEq, Repr

/-- `total_score`, the running sum accumulated over the dispatcher loop. -/
def ScoreBreakdown.total (b : ScoreBreakdown) : ℤ :=
  b.docking + b.adme_pk + b.toxicity + b.druggability + b.drug_likeness + b.off_target

/-- The dictionary returned by `aggregate_scores` (lines 99-104). -/
structure AggregationResult where
  svs_score : ℤ
  go_decision : String
  score_breakdown : ScoreBreakdown
  failure_rationale : List String
  deriving DecidableEq, Repr

/-- The dispatcher loop and decision logic of `aggregate_scores`
(lines 66-104), run on an already-validated bundle.  The loop is
unrolled in its fixed insertion order; every
`module_outputs.get(module_name, {})` becomes `Option.getD` with the
empty record. -/
def computeResult (cfg : Thresholds) (m : ModuleOutputs) : AggregationResult :=
  let dockingScore := score_docking (m.docking.getD {}) cfg.docking
  let admeScore := score_adme_pk (m.adme_pk.getD {}) cfg.adme_pk
  let tox := score_toxicity (m.toxicity.getD {}) cfg.toxicity
  let druggScore := score_druggability (m.druggability.getD {}) cfg.druggability
  let dlScore := score_drug_likeness (m.drug_likeness.getD {}) cfg.drug_likeness
  let otScore := score_off_target (m.off_target.getD {}) cfg.off_target
  let failure_rationale : List String :=
    match tox.2 with
    | some failure => ["Toxicity override triggered: " ++ failure]
    | none => []
  let score_breakdown : ScoreBreakdown :=
    ⟨dockingScore, admeScore, tox.1, druggScore, dlScore, otScore⟩
  let total_score := score_breakdown.total
  let svs_score := imin (imax total_score 0) 100
  let go_decision :=
    if svs_score ≥ 70 ∧ failure_rationale = [] then "go" else "no-go"
  ⟨svs_score, go_decision, score_breakdown, failure_rationale⟩

/-- `MetaScoringAggregator.aggregate_scores` (lines 61-104): validate the
input first; a validation failure raises before any scoring rule runs,
so an `Except.error` carries no breakdown.  (The `none, .notDict` arm is
unreachable: validation rejects every non-dict.) -/
def aggregate_scores (cfg : Thresholds) (req : ScoreRequest) :
    Except ScoringError AggregationResult :=
  match validate_input req, req with
  | some e, _ => .error e
  | none, .notDict => .error .inputNotDict
  | none, .dict m => .ok (computeResult cfg m)

/-! ## Configuration loading and validation -/

/-- The raw YAML document as `_validate_config` inspects it: for each of
the two required sections, `none` when the section key is absent and
otherwise the list of module names the section contains; `extraSections`
holds any further top-level keys (relevant only to the emptiness test).
-/
structure RawConfig where
  weights : Option (List String) := none
  thresholds : Option (List String) := none
  extraSections : List String := []
  deriving DecidableEq, Repr

/-- `not config`: the parsed document is an empty mapping. -/
def RawConfig.isEmptyDict (c : RawConfig) : Bool :=
  c.weights.isNone && c.thresholds.isNone && c.extraSections.isEmpty

/-- A configuration source as `_load_config` can encounter it:
the path does not exist, the file exists but is not valid YAML
(`detail` embeds the parser's message), or it parses — to `none` for an
empty/null document, else to a `RawConfig`. -/
inductive ConfigSource where
  | nonexistent (path : String)
  | unparsable (path detail : String)
  | parsed (path : String) (doc : Option RawConfig)
  deriving DecidableEq, Repr

/-- The `if not config` test of `_load_config` line 35: the parsed value
is `None` (empty file) or an empty mapping. -/
def docFalsy : Option RawConfig → Bool
  | none => true
  | some c => c.isEmptyDict

/-- `_load_config` (lines 25-44).  The `FileNotFoundError` and the
empty-config `ScoringError` are raised inside the `try` and re-wrapped by
`except Exception`; the wrapping lives in `ScoringError.message`. -/
def load_config : ConfigSource → Except ScoringError RawConfig
  | .nonexistent path => .error (.configNotFound path)
  | .unparsable _ detail => .error (.invalidYaml detail)
  | .parsed _ doc =>
    if docFalsy doc then .error .configEmpty
    else .ok ((doc.getD {}))

/-- The per-module loop of `_validate_config` (lines 55-59): for each
module, first the `weights` check, then the `thresholds` check; the
first failure is reported. -/
def checkModules (w t : List String) : List String → Option ScoringError
  | [] => none
  | m :: rest =>
    if m ∉ w then some (.missingWeight m)
    else if m ∉ t then some (.missingThreshold m)
    else checkModules w t rest

/-- `_validate_config` (lines 46-59): the sections loop (in the order
`weights`, `thresholds`) then the modules loop. -/
def validate_config (c : RawConfig) : Option ScoringError :=
  match c.weights with
  | none => some (.missingSection "weights")
  | some w =>
    match c.thresholds with
    | none => some (.missingSection "thresholds")
    | some t => checkModules w t requiredModules

/-- `MetaScoringAggregator.__init__` (lines 19-23): load, then validate;
on success the constructed aggregator holds the loaded config. -/
def mkAggregator (src : ConfigSource) : Except ScoringError RawConfig :=
  match load_config src with
  | .error e => .error e
  | .ok c =>
    match validate_config c with
    | some e => .error e
    | none => .ok c

/-! ## State-passing view of a scoring call

`aggregate_scores` reads `self.config` (line 66) and reads
`module_outputs` only through `in` / `.get` (lines 82, 108-116); it never
assigns to `self.config` nor stores into `module_outputs`, so the
state-passing embedding of a call returns both unchanged alongside the
freshly built result. -/
def aggregate_scores_call (cfg : Thresholds) (req : ScoreRequest) :
    Thresholds × ScoreRequest × Except ScoringError AggregationResult :=
  (cfg, req, aggregate_scores cfg req)

/-- Equality of embedded call outcomes is decidable, so concrete runs
can be checked by evaluation. -/
instance {ε α : Type} [DecidableEq ε] [DecidableEq α] : DecidableEq (Except ε α) :=
  fun x y =>
    match x, y with
    | .ok a, .ok b =>
      if h : a = b then isTrue (by rw [h])
      else isFalse (fun hc => h (Except.ok.inj hc))
    | .error a, .error b =>
      if h : a = b then isTrue (by rw [h])
      else isFalse (fun hc => h (Except.error.inj hc))
    | .ok _, .error _ => isFalse (fun hc => Except.noConfusion hc)
    | .error _, .ok _ => isFalse (fun hc => Except.noConfusion hc)

/-! ## Claim-side restatement of the toxicity rule

`toxicity_spec` follows the specification's words (base score by flag
count, base override reason, per-offender penalty of 10, reasons joined
by "; " when both present, final floor at 0); it exists only to be
compared with `score_toxicity`, which is translated from the source. -/

/-- The toxicity rule as the specification states it. -/
def toxicity_spec (d : ToxData) (c : ToxConfig) : ℤ × Option String :=
  let n := d.num_models_flagged.getD 0
  let base : ℤ := if n = 0 then 20 else if n = 1 then 10 else 0
  let baseReason : Option String :=
    if n ≠ 0 ∧ n ≠ 1 ∧ n > c.max_flags_allowed then
      some (">" ++ toString c.max_flags_allowed ++ " toxicity models flagged")
    else none
  let offenders := (d.high_risk_models.getD []).filter (fun m => m ∈ c.override_models)
  let penaltyReason : Option String :=
    if offenders = [] then none
    else some ("High-risk models flagged: " ++ String.intercalate ", " offenders)
  let reason : Option String :=
    match baseReason, penaltyReason with
    | some r, some p => some (r ++ "; " ++ p)
    | some r, none => some r
    | none, some p => some p
    | none, none => none
  (imax (base - 10 * offenders.length) 0, reason)

/-! ## Concrete instances used by witnesses and counterexamples -/

/-- A full, well-shaped thresholds configuration (integer-valued, all
bonuses and table values nonnegative). -/
def cfgW : Thresholds :=
  { docking :=
      { affinity_high := -9, affinity_medium := -8, affinity_low := -6
      , rmsd_max := 3, min_poses := 3 }
  , adme_pk :=
      { logP_lo := 0, logP_hi := 5, half_life_min := 1
      , clearance_acceptable := ["acceptable"], cyp_inhibition_penalty := -5 }
  , toxicity := { max_flags_allowed := 2, override_models := ["DILIrank", "ProTox-II"] }
  , druggability :=
      { high_score := 1, mid_score := 0, bonus_volume_min := 400
      , bonus_hydrophobicity_min := 1, volume_hydrophobicity_bonus := 2 }
  , drug_likeness := { score_by_violations := [(0, 10), (1, 5), (2, 2), (5, 1)] }
  , off_target :=
      { si_t0 := 2, si_t1 := 5, si_t2 := 10
      , low_target_bonus_threshold := 5, low_target_bonus := 3 } }

/-- A complete near-perfect input bundle. -/
def mW : ModuleOutputs :=
  { docking := some { affinity_kcal := some (-10), rmsd := some 2, num_converged_poses := some 5 }
  , adme_pk := some
      { logP := some 3, hia := some "high", half_life_hr := some 5
      , clearance := some "acceptable", cyp_inhibition := some false }
  , toxicity := some { num_models_flagged := some 0, high_risk_models := some [] }
  , druggability := some { pocket_score := some 2, volume := some 450, hydrophobicity := some 1 }
  , drug_likeness := some { num_violations := some 0 }
  , off_target := some { selectivity_index := some 12, num_off_targets := some 3 } }

/-- The result of scoring `mW` under `cfgW`. -/
def resW : AggregationResult := ⟨100, "go", ⟨25, 20, 20, 12, 10, 18⟩, []⟩

/-- `cfgW` with a negative druggability bonus (the same convention the
source uses for `cyp_inhibition_penalty`, a negative additive config
value). -/
def cfgNeg : Thresholds :=
  { cfgW with druggability :=
      { high_score := 1, mid_score := 1, bonus_volume_min := 0
      , bonus_hydrophobicity_min := 0, volume_hydrophobicity_bonus := -7 } }

/-- `mW` with an empty druggability record (all fields at their
defaults). -/
def mNeg : ModuleOutputs := { mW with druggability := some {} }

/-- The result of scoring `mNeg` under `cfgNeg`: the druggability entry
is negative. -/
def resNeg : AggregationResult := ⟨86, "go", ⟨25, 20, 20, -7, 10, 18⟩, []⟩

/-- An input bundle missing exactly `toxicity` and `off_target`
(specification Scenario E). -/
def mE : ModuleOutputs :=
  { docking := some {}, adme_pk := some {}
  , druggability := some {}, drug_likeness := some {} }

/-- A parsed configuration document with a complete `weights` section
and no `thresholds` section (specification Scenario D). -/
def docD : RawConfig := { weights := some requiredModules }

/-! ## Helper lemmas -/

theorem imax_nonneg (a : ℤ) : 0 ≤ imax a 0 := by
  unfold imax
  split <;> omega

theorem imax_eq_max (a b : ℤ) : imax a b = max a b := by
  unfold imax
  omega

theorem imin_eq_min (a b : ℤ) : imin a b = min a b := by
  unfold imin
  omega

theorem computeResult_svs_score (cfg : Thresholds) (m : ModuleOutputs) :
    (computeResult cfg m).svs_score =
      imin (imax (computeResult cfg m).score_breakdown.total 0) 100 := rfl

theorem computeResult_go (cfg : Thresholds) (m : ModuleOutputs) :
    (computeResult cfg m).go_decision =
      if (computeResult cfg m).svs_score ≥ 70 ∧ (computeResult cfg m).failure_rationale = []
      then "go" else "no-go" := rfl

theorem computeResult_rationale (cfg : Thresholds) (m : ModuleOutputs) :
    (computeResult cfg m).failure_rationale =
      match (score_toxicity (m.toxicity.getD {}) cfg.toxicity).2 with
      | some failure => ["Toxicity override triggered: " ++ failure]
      | none => [] := rfl

theorem computeResult_breakdown (cfg : Thresholds) (m : ModuleOutputs) :
    (computeResult cfg m).score_breakdown =
      ⟨score_docking (m.docking.getD {}) cfg.docking,
       score_adme_pk (m.adme_pk.getD {}) cfg.adme_pk,
       (score_toxicity (m.toxicity.getD {}) cfg.toxicity).1,
       score_druggability (m.druggability.getD {}) cfg.druggability,
       score_drug_likeness (m.drug_likeness.getD {}) cfg.drug_likeness,
       score_off_target (m.off_target.getD {}) cfg.off_target⟩ := rfl

theorem aggregate_ok_inv {cfg : Thresholds} {req : ScoreRequest} {r : AggregationResult}
    (h : aggregate_scores cfg req = .ok r) :
    ∃ m, req = .dict m ∧ r = computeResult cfg m := by
  cases req with
  | notDict => simp [aggregate_scores, validate_input] at h
  | dict m =>
    cases hv : validate_input (.dict m) with
    | some e => simp [aggregate_scores, hv] at h
    | none =>
      simp [aggregate_scores, hv] at h
      exact ⟨m, rfl, h.symm⟩

theorem aggregate_error_of_validate {cfg : Thresholds} {req : ScoreRequest} {e : ScoringError}
    (h : validate_input req = some e) : aggregate_scores cfg req = .error e := by
  cases req with
  | notDict =>
    simp [validate_input] at h
    subst h
    rfl
  | dict m => simp [aggregate_scores, h]

theorem score_docking_nonneg (d : DockingData) (c : DockingConfig) :
    0 ≤ score_docking d c := by
  unfold score_docking
  exact imax_nonneg _

theorem score_adme_pk_nonneg (d : AdmeData) (c : AdmeConfig) :
    0 ≤ score_adme_pk d c := by
  unfold score_adme_pk
  exact imax_nonneg _

theorem score_toxicity_eq (d : ToxData) (c : ToxConfig) :
    score_toxicity d c = toxicity_spec d c := by
  simp only [score_toxicity, toxicity_spec]
  by_cases h0 : d.num_models_flagged.getD 0 = 0 <;>
    by_cases h1 : d.num_models_flagged.getD 0 = 1 <;>
      by_cases hm : d.num_models_flagged.getD 0 > c.max_flags_allowed <;>
        by_cases hp :
          (d.high_risk_models.getD []).filter (fun m => m ∈ c.override_models) = [] <;>
          simp [h0, h1, hm, hp]

theorem score_toxicity_fst_nonneg (d : ToxData) (c : ToxConfig) :
    0 ≤ (score_toxicity d c).1 := by
  rw [score_toxicity_eq]
  exact imax_nonneg _

theorem score_druggability_nonneg (d : DruggData) (c : DruggConfig)
    (hb : 0 ≤ c.volume_hydrophobicity_bonus) : 0 ≤ score_druggability d c := by
  simp only [score_druggability]
  split_ifs <;> omega

theorem tableLookup_nonneg {tbl : List (ℕ × ℤ)} {k : ℕ}
    (h : ∀ p ∈ tbl, 0 ≤ p.2) : 0 ≤ tableLookup tbl k := by
  unfold tableLookup
  cases hf : tbl.find? (fun p => p.fst = k) with
  | none => simp
  | some p => simpa using h p (List.mem_of_find?_eq_some hf)

theorem score_drug_likeness_nonneg (d : DrugLikenessData) (c : DrugLikenessConfig)
    (h : ∀ p ∈ c.score_by_violations, 0 ≤ p.2) : 0 ≤ score_drug_likeness d c := by
  unfold score_drug_likeness
  exact tableLookup_nonneg h

theorem score_off_target_nonneg (d : OffTargetData) (c : OffTargetConfig)
    (hb : 0 ≤ c.low_target_bonus) : 0 ≤ score_off_target d c := by
  unfold score_off_target
  cases d.num_off_targets <;> simp only [] <;> split_ifs <;> omega

theorem checkModules_missing_weight (w t : List String) :
    ∀ (l₁ : List String) (m : String) (l₂ : List String),
      (∀ x ∈ l₁, x ∈ w ∧ x ∈ t) → m ∉ w →
      checkModules w t (l₁ ++ m :: l₂) = some (.missingWeight m) := by
  intro l₁
  induction l₁ with
  | nil =>
    intro m l₂ _ hm
    simp [checkModules, hm]
  | cons x xs ih =>
    intro m l₂ hall hm
    have hx := hall x (by simp)
    simp only [List.cons_append, checkModules]
    rw [if_neg (not_not_intro hx.1), if_neg (not_not_intro hx.2)]
    exact ih m l₂ (fun y hy => hall y (by simp [hy])) hm

theorem checkModules_missing_threshold (w t : List String) :
    ∀ (l₁ : List String) (m : String) (l₂ : List String),
      (∀ x ∈ l₁, x ∈ w ∧ x ∈ t) → m ∈ w → m ∉ t →
      checkModules w t (l₁ ++ m :: l₂) = some (.missingThreshold m) := by
  intro l₁
  induction l₁ with
  | nil =>
    intro m l₂ _ hw ht
    simp only [List.nil_append, checkModules]
    rw [if_neg (not_not_intro hw), if_pos ht]
  | cons x xs ih =>
    intro m l₂ hall hw ht
    have hx := hall x (by simp)
    simp only [List.cons_append, checkModules]
    rw [if_neg (not_not_intro hx.1), if_neg (not_not_intro hx.2)]
    exact ih m l₂ (fun y hy => hall y (by simp [hy])) hw ht

theorem checkModules_ok (w t : List String) :
    ∀ l : List String, (∀ x ∈ l, x ∈ w ∧ x ∈ t) → checkModules w t l = none := by
  intro l
  induction l with
  | nil => intro _; rfl
  | cons x xs ih =>
    intro hall
    have hx := hall x (by simp)
    simp only [checkModules]
    rw [if_neg (not_not_intro hx.1), if_neg (not_not_intro hx.2)]
    exact ih (fun y hy => hall y (by simp [hy]))

theorem isEmptyDict_false_of_weights {c : RawConfig} {w : List String}
    (h : c.weights = some w) : c.isEmptyDict = false := by
  simp [RawConfig.isEmptyDict, h]

/-! ## Claim theorems -/

/-- C1: for every config and every accepted input bundle, the returned
`svs_score` equals the sum of the six `score_breakdown` values clamped
into `[0, 100]`, i.e. `max 0 (min 100 total)`. -/
theorem c1_svs_score_clamped_sum :
    ∀ (cfg : Thresholds) (req : ScoreRequest) (r : AggregationResult),
      aggregate_scores cfg req = .ok r →
      r.svs_score = max 0 (min 100 r.score_breakdown.total) := by
  intro cfg req r h
  obtain ⟨m, rfl, rfl⟩ := aggregate_ok_inv h
  rw [computeResult_svs_score, imin_eq_min, imax_eq_max]
  omega

/-- Witness for C1 at the concrete config `cfgW` and bundle `mW`. -/
theorem c1_witness :
    resW.svs_score = max 0 (min 100 resW.score_breakdown.total) :=
  c1_svs_score_clamped_sum cfgW (.dict mW) resW (by decide)

/-- C2: the returned `go_decision` is `"go"` iff `svs_score ≥ 70` and
`failure_rationale` is empty; in every other case it is `"no-go"`. -/
theorem c2_go_decision_iff :
    ∀ (cfg : Thresholds) (req : ScoreRequest) (r : AggregationResult),
      aggregate_scores cfg req = .ok r →
      (r.go_decision = "go" ↔ 70 ≤ r.svs_score ∧ r.failure_rationale = []) ∧
      (r.go_decision = "go" ∨ r.go_decision = "no-go") := by
  intro cfg req r h
  obtain ⟨m, rfl, rfl⟩ := aggregate_ok_inv h
  rw [computeResult_go]
  constructor
  · split_ifs with hc
    · simpa using hc
    · simpa using hc
  · split_ifs <;> simp

/-- Witness for C2 at the concrete config `cfgW` and bundle `mW`. -/
theorem c2_witness :
    (resW.go_decision = "go" ↔ 70 ≤ resW.svs_score ∧ resW.failure_rationale = []) ∧
    (resW.go_decision = "go" ∨ resW.go_decision = "no-go") :=
  c2_go_decision_iff cfgW (.dict mW) resW (by decide)

/-- C3, counterexample to the claim as stated: under the valid config
`cfgNeg` (whose druggability bonus is the negative value -7, a shape
config validation accepts, just as it accepts the typically negative
`cyp_inhibition_penalty`), the accepted bundle `mNeg` yields a
`score_breakdown` whose druggability entry is negative: the source's
`_score_druggability` returns without flooring at zero. -/
theorem c3_counterexample :
    aggregate_scores cfgNeg (.dict mNeg) = .ok resNeg ∧
      ¬ (0 ≤ resNeg.score_breakdown.druggability) :=
  ⟨by decide, by decide⟩

/-- C3 (amended): the docking, adme_pk and toxicity rules floor their
returned score at zero, so those three breakdown entries are always
`≥ 0`; the druggability, drug_likeness and off_target rules return
without flooring, and their entries are `≥ 0` provided the configured
druggability bonus, off-target bonus and every violations-table value
are nonnegative. -/
theorem c3_scores_nonneg_amended :
    ∀ (cfg : Thresholds) (req : ScoreRequest) (r : AggregationResult),
      aggregate_scores cfg req = .ok r →
      0 ≤ r.score_breakdown.docking ∧
      0 ≤ r.score_breakdown.adme_pk ∧
      0 ≤ r.score_breakdown.toxicity ∧
      (0 ≤ cfg.druggability.volume_hydrophobicity_bonus →
        0 ≤ r.score_breakdown.druggability) ∧
      ((∀ p ∈ cfg.drug_likeness.score_by_violations, 0 ≤ p.2) →
        0 ≤ r.score_breakdown.drug_likeness) ∧
      (0 ≤ cfg.off_target.low_target_bonus →
        0 ≤ r.score_breakdown.off_target) := by
  intro cfg req r h
  obtain ⟨m, rfl, rfl⟩ := aggregate_ok_inv h
  rw [computeResult_breakdown]
  exact ⟨score_docking_nonneg _ _, score_adme_pk_nonneg _ _,
    score_toxicity_fst_nonneg _ _,
    fun hb => score_druggability_nonneg _ _ hb,
    fun ht => score_drug_likeness_nonneg _ _ ht,
    fun hb => score_off_target_nonneg _ _ hb⟩

/-- Witness for the amended C3 at `cfgW` (all bonuses and table values
nonnegative) and `mW`. -/
theorem c3_witness :
    0 ≤ resW.score_breakdown.docking ∧
    0 ≤ resW.score_breakdown.druggability ∧
    0 ≤ resW.score_breakdown.drug_likeness ∧
    0 ≤ resW.score_breakdown.off_target := by
  have h := c3_scores_nonneg_amended cfgW (.dict mW) resW (by decide)
  exact ⟨h.1, h.2.2.2.1 (by decide), h.2.2.2.2.1 (by decide), h.2.2.2.2.2 (by decide)⟩

/-- C4: the toxicity rule computes exactly the specification's case
analysis — base 20 for zero flags, 10 for exactly one, an override
reason `">{max} toxicity models flagged"` when the count exceeds
`max_flags_allowed`, nothing for counts falling through the chain;
minus 10 per flagged model in `override_models`, with the offender
reason joined to the base reason by `"; "` when both are present, and
the final score floored at 0 (`toxicity_spec` states the claim's words).
-/
theorem c4_toxicity_rule :
    ∀ (d : ToxData) (c : ToxConfig), score_toxicity d c = toxicity_spec d c :=
  score_toxicity_eq

/-- C5: a scoring call fails exactly when the request is not a mapping,
is an empty mapping, or is missing at least one of the six module keys;
the missing-keys error reports the full list of missing keys; a
rejected request produces an `Except.error` carrying no breakdown (the
validation happens before any scoring rule runs), and every other
request is scored. -/
theorem c5_input_validation (cfg : Thresholds) :
    (aggregate_scores cfg .notDict = .error .inputNotDict) ∧
    (∀ m : ModuleOutputs, m.isEmptyDict = true →
      aggregate_scores cfg (.dict m) = .error .inputEmpty) ∧
    (∀ m : ModuleOutputs, m.isEmptyDict = false → missingKeys m ≠ [] →
      aggregate_scores cfg (.dict m) = .error (.missingModules (missingKeys m))) ∧
    (∀ m : ModuleOutputs, m.isEmptyDict = false → missingKeys m = [] →
      aggregate_scores cfg (.dict m) = .ok (computeResult cfg m)) := by
  refine ⟨rfl, ?_, ?_, ?_⟩
  · intro m h
    exact aggregate_error_of_validate (by simp [validate_input, h])
  · intro m h hmiss
    exact aggregate_error_of_validate (by simp [validate_input, h, hmiss])
  · intro m h hmiss
    have hv : validate_input (.dict m) = none := by simp [validate_input, h, hmiss]
    simp [aggregate_scores, hv]

/-- Witness for C5: a bundle missing exactly `toxicity` and `off_target`
is rejected with the full list of missing keys (Scenario E). -/
theorem c5_witness :
    aggregate_scores cfgW (.dict mE) = .error (.missingModules ["toxicity", "off_target"]) := by
  have h := (c5_input_validation cfgW).2.2.1 mE (by decide) (by decide)
  rw [show missingKeys mE = ["toxicity", "off_target"] from by decide] at h
  exact h

/-- C6: aggregator construction fails exactly on (in this order) a
nonexistent source, an unparsable source, an empty/null document, a
missing `weights` then `thresholds` section, and then — walking the six
modules in their fixed order — the first module missing from `weights`
(checked first) or from `thresholds`; with every requirement present,
construction succeeds with the loaded config. -/
theorem c6_config_validation :
    (∀ path, mkAggregator (.nonexistent path) = .error (.configNotFound path)) ∧
    (∀ path detail, mkAggregator (.unparsable path detail) = .error (.invalidYaml detail)) ∧
    (∀ path doc, docFalsy doc = true →
      mkAggregator (.parsed path doc) = .error .configEmpty) ∧
    (∀ path (c : RawConfig), c.isEmptyDict = false → c.weights = none →
      mkAggregator (.parsed path (some c)) = .error (.missingSection "weights")) ∧
    (∀ path (c : RawConfig) w, c.weights = some w → c.thresholds = none →
      mkAggregator (.parsed path (some c)) = .error (.missingSection "thresholds")) ∧
    (∀ path (c : RawConfig) w t l₁ m l₂,
      c.weights = some w → c.thresholds = some t →
      requiredModules = l₁ ++ m :: l₂ → (∀ x ∈ l₁, x ∈ w ∧ x ∈ t) → m ∉ w →
      mkAggregator (.parsed path (some c)) = .error (.missingWeight m)) ∧
    (∀ path (c : RawConfig) w t l₁ m l₂,
      c.weights = some w → c.thresholds = some t →
      requiredModules = l₁ ++ m :: l₂ → (∀ x ∈ l₁, x ∈ w ∧ x ∈ t) → m ∈ w → m ∉ t →
      mkAggregator (.parsed path (some c)) = .error (.missingThreshold m)) ∧
    (∀ path (c : RawConfig) w t, c.weights = some w → c.thresholds = some t →
      (∀ x ∈ requiredModules, x ∈ w ∧ x ∈ t) →
      mkAggregator (.parsed path (some c)) = .ok c) := by
  refine ⟨fun _ => rfl, fun _ _ => rfl, ?_, ?_, ?_, ?_, ?_, ?_⟩
  · intro path doc h
    simp [mkAggregator, load_config, h]
  · intro path c hne hw
    simp [mkAggregator, load_config, docFalsy, hne, validate_config, hw]
  · intro path c w hw ht
    simp [mkAggregator, load_config, docFalsy, isEmptyDict_false_of_weights hw,
      validate_config, hw, ht]
  · intro path c w t l₁ m l₂ hw ht hreq hall hm
    simp [mkAggregator, load_config, docFalsy, isEmptyDict_false_of_weights hw,
      validate_config, hw, ht, hreq, checkModules_missing_weight w t l₁ m l₂ hall hm]
  · intro path c w t l₁ m l₂ hw ht hreq hall hmw hmt
    simp [mkAggregator, load_config, docFalsy, isEmptyDict_false_of_weights hw,
      validate_config, hw, ht, hreq,
      checkModules_missing_threshold w t l₁ m l₂ hall hmw hmt]
  · intro path c w t hw ht hall
    simp [mkAggregator, load_config, docFalsy, isEmptyDict_false_of_weights hw,
      validate_config, hw, ht, checkModules_ok w t requiredModules hall]

/-- Witness for C6: a document with a complete `weights` section but no
`thresholds` section is rejected citing `thresholds` (Scenario D). -/
theorem c6_witness :
    mkAggregator (.parsed "score_config.yaml" (some docD)) =
      .error (.missingSection "thresholds") :=
  c6_config_validation.2.2.2.2.1 "score_config.yaml" docD requiredModules rfl rfl

/-- C7: when the violation count exceeds the largest table key, the
drug-likeness score equals the score at exactly that largest key (the
lookup key is clamped down before lookup), and if the clamped key is
absent from the table the lookup yields 0. -/
theorem c7_drug_likeness_clamping :
    ∀ (c : DrugLikenessConfig) (v : ℕ),
      c.score_by_violations ≠ [] →
      maxKey c.score_by_violations < v →
      score_drug_likeness ⟨some v⟩ c = score_drug_likeness ⟨some (maxKey c.score_by_violations)⟩ c ∧
      (nmin v (maxKey c.score_by_violations) ∉ c.score_by_violations.map Prod.fst →
        score_drug_likeness ⟨some v⟩ c = 0) := by
  intro c v _ hv
  have hK : nmin v (maxKey c.score_by_violations) = maxKey c.score_by_violations := by
    unfold nmin
    split <;> omega
  have hKK : nmin (maxKey c.score_by_violations) (maxKey c.score_by_violations) =
      maxKey c.score_by_violations := by
    unfold nmin
    split <;> omega
  constructor
  · show tableLookup c.score_by_violations (nmin v (maxKey c.score_by_violations)) =
      tableLookup c.score_by_violations
        (nmin (maxKey c.score_by_violations) (maxKey c.score_by_violations))
    rw [hK, hKK]
  · intro hmem
    show tableLookup c.score_by_violations (nmin v (maxKey c.score_by_violations)) = 0
    unfold tableLookup
    rw [List.find?_eq_none.mpr]
    · rfl
    · intro p hp
      simp only [decide_eq_true_eq]
      intro hpk
      exact hmem (hpk ▸ List.mem_map_of_mem Prod.fst hp)

/-- Witness for C7: a violation count of 99 against a table whose
largest key is 5 scores identically to a count of exactly 5. -/
theorem c7_witness :
    score_drug_likeness ⟨some 99⟩ cfgW.drug_likeness =
      score_drug_likeness ⟨some (maxKey cfgW.drug_likeness.score_by_violations)⟩
        cfgW.drug_likeness :=
  (c7_drug_likeness_clamping cfgW.drug_likeness 99 (by decide) (by decide)).1

/-- C8: aggregation is deterministic and stateless — with the same
loaded config, a call on equal inputs returns an equal result, and a
second call made from the post-call state of a first call returns the
same result as the first. -/
theorem c8_deterministic_stateless :
    ∀ (cfg : Thresholds) (req₁ req₂ : ScoreRequest), req₁ = req₂ →
      (aggregate_scores_call cfg req₁).2.2 = (aggregate_scores_call cfg req₂).2.2 ∧
      (aggregate_scores_call (aggregate_scores_call cfg req₁).1 req₂).2.2 =
        (aggregate_scores_call cfg req₁).2.2 := by
  rintro cfg req₁ req₂ rfl
  exact ⟨rfl, rfl⟩

/-- Witness for C8 at the concrete config `cfgW` and bundle `mW`. -/
theorem c8_witness :
    (aggregate_scores_call cfgW (.dict mW)).2.2 =
      (aggregate_scores_call cfgW (.dict mW)).2.2 ∧
    (aggregate_scores_call (aggregate_scores_call cfgW (.dict mW)).1 (.dict mW)).2.2 =
      (aggregate_scores_call cfgW (.dict mW)).2.2 :=
  c8_deterministic_stateless cfgW (.dict mW) (.dict mW) rfl

/-- C9: a scoring call leaves both the loaded configuration and the
input bundle unchanged (the source only reads `self.config` and only
reads `module_outputs` through membership tests and `.get`). -/
theorem c9_no_mutation :
    ∀ (cfg : Thresholds) (req : ScoreRequest),
      (aggregate_scores_call cfg req).1 = cfg ∧
      (aggregate_scores_call cfg req).2.1 = req :=
  fun _ _ => ⟨rfl, rfl⟩

/-- C10: the returned `failure_rationale` holds at most one entry; only
the toxicity rule contributes, and when an entry is present it carries
the `"Toxicity override triggered: "` head. -/
theorem c10_failure_rationale :
    ∀ (cfg : Thresholds) (req : ScoreRequest) (r : AggregationResult),
      aggregate_scores cfg req = .ok r →
      r.failure_rationale.length ≤ 1 ∧
      (r.failure_rationale = [] ∨
        ∃ t, r.failure_rationale = ["Toxicity override triggered: " ++ t]) := by
  intro cfg req r h
  obtain ⟨m, rfl, rfl⟩ := aggregate_ok_inv h
  rw [computeResult_rationale]
  cases hf : (score_toxicity (m.toxicity.getD {}) cfg.toxicity).2 with
  | none => exact ⟨by simp, Or.inl rfl⟩
  | some f => exact ⟨by simp, Or.inr ⟨f, rfl⟩⟩

/-- Witness for C10 at the concrete config `cfgW` and bundle `mW`. -/
theorem c10_witness :
    resW.failure_rationale.length ≤ 1 ∧
    (resW.failure_rationale = [] ∨
      ∃ t, resW.failure_rationale = ["Toxicity override triggered: " ++ t]) :=
  c10_failure_rationale cfgW (.dict mW) resW (by decide)

end MetaScorer
